import Mathlib

/-!
Shallow embedding of the bloomwatch backend core (bloom_detector.py and
nasa_api.py) over exact rational arithmetic.  Python floats are modelled
as `ℚ`; `round(x, d)` is modelled by `roundTo d` (round-half-up; Python
rounds ties to even, a difference only visible at exact decimal halves).
Python dict `.get(key, default)` access is modelled by `Option` fields
with `Option.getD`.  `datetime` values are modelled by their proleptic
Gregorian day count (`daysFromCivil`, the standard civil-calendar
conversion), so date subtraction is integer subtraction and
`timedelta(days = n)` is `+ n`.  Presentation-only string fields
(`message`, `color` text, date formatting) that no property depends on
are either carried verbatim or omitted where noted.
-/

namespace BloomWatch

/-- Model of Python `round(x, d)` on exact rationals. -/
def roundTo (d : ℕ) (x : ℚ) : ℚ := (round (x * (10 : ℚ) ^ d) : ℤ) / (10 : ℚ) ^ d

/-- Truncation toward zero, the behaviour of Python `int()` on a number. -/
def intTrunc (q : ℚ) : ℤ := if 0 ≤ q then ⌊q⌋ else ⌈q⌉

/-! ### bloom_detector.py : BloomDetector constants -/

/-- `self.bloom_threshold_ndvi` set in `BloomDetector.__init__`. -/
def bloom_threshold_ndvi : ℚ := 0.6

/-- `self.bloom_threshold_evi` set in `BloomDetector.__init__` (unused by the core paths). -/
def bloom_threshold_evi : ℚ := 0.65

/-- `self.growth_rate_threshold` set in `BloomDetector.__init__`. -/
def growth_rate_threshold : ℚ := 0.05

/-! ### bloom_detector.py : analyze_bloom -/

/-- A satellite data record passed to `analyze_bloom`; `none` models a missing
dict key, which the code replaces via `.get(key, default)`. -/
structure SatelliteData where
  ndvi : Option ℚ
  evi : Option ℚ
  temperature : Option ℚ
  precipitation : Option ℚ
deriving Repr, DecidableEq

inductive BloomStatus where
  | peak_bloom
  | active_bloom
  | early_bloom
  | no_bloom
deriving Repr, DecidableEq

/-- `BloomDetector._calculate_bloom_level`. -/
def calculateBloomLevel (ndvi evi temp precip : ℚ) : ℚ :=
  let vegFactor := ((ndvi + evi) / 2) * 40
  let tempDeviation := |temp - 20|
  let tempFactor := max 0 ((10 - tempDeviation) / 10) * 30
  let precipFactor := if 0 < precip then min (precip / 15) 1 * 30 else 5
  roundTo 1 (min (vegFactor + tempFactor + precipFactor) 100)

/-- The status branch of `analyze_bloom` (the `if bloom_level >= 70: ...` chain). -/
def statusOf (lvl : ℚ) : BloomStatus :=
  if 70 ≤ lvl then .peak_bloom
  else if 50 ≤ lvl then .active_bloom
  else if 30 ≤ lvl then .early_bloom
  else .no_bloom

/-- The per-band confidence value of `analyze_bloom`, before the
`min(confidence, 0.95)` cap and the 2-decimal rounding. -/
def rawConfidence (lvl : ℚ) : ℚ :=
  if 70 ≤ lvl then 0.85 + (lvl - 70) / 100
  else if 50 ≤ lvl then 0.70 + (lvl - 50) / 100
  else if 30 ≤ lvl then 0.55 + (lvl - 30) / 100
  else 0.40 + lvl / 100

/-- The confidence field of `analyze_bloom`: `round(min(confidence, 0.95), 2)`. -/
def confidenceOf (lvl : ℚ) : ℚ := roundTo 2 (min (rawConfidence lvl) 0.95)

/-- The color branch of `analyze_bloom`. -/
def colorOf (lvl : ℚ) : String :=
  if 70 ≤ lvl then "#00ff00"
  else if 50 ≤ lvl then "#90ee90"
  else if 30 ≤ lvl then "#ffff00"
  else "#808080"

/-- The dict returned by `analyze_bloom`; the presentational `message` string
(from `_get_status_message`) is not modelled, no property depends on it. -/
structure BloomAssessment where
  status : BloomStatus
  level : ℚ
  confidence : ℚ
  color : String
  ndvi : ℚ
  evi : ℚ
deriving Repr, DecidableEq

/-- `BloomDetector.analyze_bloom`. -/
def analyzeBloom (d : SatelliteData) : BloomAssessment :=
  let ndvi := d.ndvi.getD 0
  let evi := d.evi.getD 0
  let temp := d.temperature.getD 20
  let precip := d.precipitation.getD 0
  let lvl := calculateBloomLevel ndvi evi temp precip
  { status := statusOf lvl
    level := lvl
    confidence := confidenceOf lvl
    color := colorOf lvl
    ndvi := ndvi
    evi := evi }

/-! ### nasa_api.py : NASADataFetcher -/

/-- `NASADataFetcher._calculate_simulated_ndvi`. -/
def calculateSimulatedNdvi (temp precip : ℚ) : ℚ :=
  let tempFactor := max 0 (min 1 (1 - |temp - 20| / 30))
  let precipFactor := if 0 < precip then min (precip / 10) 1 else 0.3
  max 0 (min 0.95 ((tempFactor * 0.6 + precipFactor * 0.4) * 0.9))

/-- The EVI derivation on the successful-lookup path of `get_vegetation_index`:
`evi = ndvi * 1.2 if ndvi < 0.83 else ndvi`. -/
def eviFromNdvi (n : ℚ) : ℚ := if n < 0.83 then n * 1.2 else n

/-- The dict returned by `get_vegetation_index` and `_get_fallback_data`
(the `date` string is not modelled; no property depends on it). -/
structure VegetationIndex where
  ndvi : ℚ
  evi : ℚ
  temperature : ℚ
  precipitation : ℚ
deriving Repr, DecidableEq

/-- The successful-response branch of `NASADataFetcher.get_vegetation_index`,
as a function of the temperature and precipitation values extracted from the
provider payload. -/
def getVegetationIndexSuccess (tempVal precipVal : ℚ) : VegetationIndex :=
  let ndvi := calculateSimulatedNdvi tempVal precipVal
  let evi := eviFromNdvi ndvi
  { ndvi := roundTo 3 ndvi
    evi := roundTo 3 evi
    temperature := tempVal
    precipitation := precipVal }

/-- `NASADataFetcher._get_fallback_data`.  The three `random.uniform` draws are
passed explicitly: `uNdvi` for `random.uniform(0, 0.3)`, `uTemp` for
`random.uniform(-5, 15)`, `uPrecip` for `random.uniform(0, 20)`.  The function
is total: fallback generation never fails. -/
def getFallbackData (lat : ℚ) (uNdvi uTemp uPrecip : ℚ) : VegetationIndex :=
  let seasonFactor := |lat| / 90
  let baseNdvi := 0.4 + uNdvi * (1 - seasonFactor)
  { ndvi := roundTo 3 baseNdvi
    evi := roundTo 3 (baseNdvi * 1.15)
    temperature := 15 + uTemp
    precipitation := uPrecip }

/-! ### bloom_detector.py : predict_bloom_date

Dates appear in the source as `YYYYMMDD` strings parsed with
`datetime.strptime`; they are modelled as the 8-digit number, and
`daysFromCivil` converts to a proleptic Gregorian day count so that
`(date2 - date1).days` becomes integer subtraction. -/

/-- Day count of a proleptic Gregorian civil date (days since 1970-01-01,
the standard civil-from-days correspondence used by `datetime` arithmetic). -/
def daysFromCivil (y m d : ℤ) : ℤ :=
  let yAdj := if m ≤ 2 then y - 1 else y
  let era := (if 0 ≤ yAdj then yAdj else yAdj - 399) / 400
  let yoe := yAdj - era * 400
  let doy := (153 * (m + (if 2 < m then -3 else 9)) + 2) / 5 + d - 1
  let doe := yoe * 365 + yoe / 4 - yoe / 100 + doy
  era * 146097 + doe - 719468

/-- Day count of a `YYYYMMDD`-encoded date (the effect of
`datetime.strptime(date, '%Y%m%d')` for day arithmetic). -/
def dateToDays (yyyymmdd : ℕ) : ℤ :=
  daysFromCivil (yyyymmdd / 10000 : ℕ) ((yyyymmdd / 100) % 100 : ℕ) (yyyymmdd % 100 : ℕ)

/-- One entry of the historical series passed to `predict_bloom_date`. -/
structure HistEntry where
  ndvi : ℚ
  date : ℕ
deriving Repr, DecidableEq

/-- The transition scan of `predict_bloom_date`: for each consecutive pair
`(curr, next)` with `next.ndvi > bloom_threshold_ndvi` and
`next.ndvi - curr.ndvi > growth_rate_threshold`, collect `curr.date`. -/
def bloomTransitionDates : List HistEntry → List ℕ
  | [] => []
  | [_] => []
  | curr :: next :: rest =>
      (if bloom_threshold_ndvi < next.ndvi ∧ growth_rate_threshold < next.ndvi - curr.ndvi
       then [curr.date] else [])
      ++ bloomTransitionDates (next :: rest)

/-- The day gaps between consecutive dates, `(date2 - date1).days` per pair. -/
def dateGaps : List ℕ → List ℤ
  | [] => []
  | [_] => []
  | a :: b :: rest => (dateToDays b - dateToDays a) :: dateGaps (b :: rest)

/-- `BloomDetector._calculate_average_interval`: 90 when fewer than two dates,
otherwise `int(sum(intervals) / len(intervals))` (true division then
truncation toward zero). -/
def calculateAverageInterval (dates : List ℕ) : ℤ :=
  if dates.length < 2 then 90
  else intTrunc (((dateGaps dates).sum : ℚ) / ((dateGaps dates).length : ℚ))

/-- The three return shapes of `predict_bloom_date`:
`insufficientData` is the dict `(date 'Datos insuficientes', probability 0,
peak_period 'N/A')`; `noPattern` is `(date 'No hay patrón histórico',
probability 0.3, peak_period 'Variable')`; `predicted` carries the predicted
date as a day count, the probability, the average interval embedded in the
`peak_period` string, and `historical_blooms`. -/
inductive BloomPrediction where
  | insufficientData
  | noPattern
  | predicted (dateDays : ℤ) (probability : ℚ) (avgIntervalDays : ℤ) (historicalBlooms : ℕ)
deriving Repr, DecidableEq

/-- `BloomDetector.predict_bloom_date`. -/
def predictBloomDate (hist : List HistEntry) : BloomPrediction :=
  if hist.length < 14 then .insufficientData
  else
    let bloomDates := bloomTransitionDates hist
    if bloomDates = [] then .noPattern
    else
      let avgInterval := calculateAverageInterval bloomDates
      let lastBloom := bloomDates.getLastD 0
      .predicted (dateToDays lastBloom + avgInterval)
        (roundTo 2 (min 0.95 (0.6 + (bloomDates.length : ℚ) * 0.05)))
        avgInterval
        bloomDates.length

/-! ### bloom_detector.py : identify_species_type -/

/-- The location dict passed to `identify_species_type`; only `lat` is read,
via `location.get('lat', 0)`. -/
structure LocationData where
  lat : Option ℚ
deriving Repr, DecidableEq

/-- The dict returned by `identify_species_type`. -/
structure SpeciesInference where
  ecosystem_type : String
  species_hints : List String
  ecological_notes : List String
  biodiversity_potential : String
  confidence : String
  conservation_priority : String
deriving Repr, DecidableEq

/-- `BloomDetector._calculate_biodiversity_potential`. -/
def calculateBiodiversityPotential (ndvi evi temp precip : ℚ) : String :=
  let vegScore := (ndvi + evi) / 2 * 50
  let tempScore : ℚ := if 15 < temp ∧ temp < 28 then 30 else 15
  let precipScore : ℚ := if 5 < precip then 20 else 10
  let totalScore := vegScore + tempScore + precipScore
  if 80 < totalScore then "Muy Alto - Ecosistema rico"
  else if 60 < totalScore then "Alto - Biodiversidad significativa"
  else if 40 < totalScore then "Moderado - Biodiversidad estándar"
  else "Bajo - Ecosistema limitado"

/-- `BloomDetector.identify_species_type`: the rule cascade appending to
`species_hints` and `ecological_notes` in source order. -/
def identifySpeciesType (d : SatelliteData) (loc : LocationData) : SpeciesInference :=
  let ndvi := d.ndvi.getD 0
  let evi := d.evi.getD 0
  let temp := d.temperature.getD 20
  let precip := d.precipitation.getD 0
  let lat := loc.lat.getD 0
  let bandTropical := -23.5 ≤ lat ∧ lat ≤ 23.5
  let bandTemperate := 23.5 < |lat| ∧ |lat| ≤ 66.5
  let zoneResult :=
    if bandTropical then
      ("Tropical",
       (if 0.7 < ndvi then ["Selva tropical densa"] else [])
         ++ (if 25 < temp ∧ 10 < precip
             then ["Flores tropicales: Orquídeas, Heliconias, Jengibre"] else []),
       (if 0.7 < ndvi then ["Alta biodiversidad esperada"] else [])
         ++ (if 25 < temp ∧ 10 < precip
             then ["Período óptimo para polinizadores"] else []))
    else if bandTemperate then
      ("Templado",
       (if 15 < temp ∧ temp < 25 ∧ 0.5 < ndvi
        then ["Árboles frutales en floración",
              "Posibles especies: Cerezos, Manzanos, Duraznos"] else [])
         ++ (if 0.6 < ndvi ∧ 10 < temp ∧ temp < 20
             then ["Flores silvestres de primavera"] else []),
       (if 15 < temp ∧ temp < 25 ∧ 0.5 < ndvi
        then ["Momento crítico para control de plagas"] else [])
         ++ (if 0.6 < ndvi ∧ 10 < temp ∧ temp < 20
             then ["Importante para polinizadores nativos"] else []))
    else
      ("Boreal/Polar",
       if 0.3 < ndvi then ["Tundra floreciente o bosque boreal"] else [],
       if 0.3 < ndvi
       then ["Ventana corta de floración - sensible a cambio climático"] else [])
  let agricultural := 0.4 < ndvi ∧ ndvi < 0.7 ∧ 0.5 < evi ∧ evi < 0.8
  let agrHints :=
    if agricultural then
      "🌾 Patrón agrícola detectado"
        :: (if 20 < temp then ["Cultivos posibles: Algodón, Girasoles, Canola"]
            else ["Cultivos de clima frío: Trigo, Cebada"])
    else []
  let agrNotes :=
    if agricultural ∧ 20 < temp
    then ["Fase pre-floración crítica para aplicación de fertilizantes"] else []
  let invasive := 0.75 < ndvi ∧ temp < 10
  let invHints := if invasive then ["⚠️ ALERTA: Posible especie invasora"] else []
  let invNotes :=
    if invasive
    then ["Floración anómala fuera de temporada normal",
          "Requiere inspección de campo urgente"] else []
  let degraded := ndvi < 0.25
  let degHints := if degraded then ["Vegetación escasa o degradada"] else []
  let degNotes :=
    if degraded
    then ["⚠️ Posible desertificación o sobreexplotación",
          "Área prioritaria para restauración"] else []
  let speciesHints := zoneResult.2.1 ++ agrHints ++ invHints ++ degHints
  let ecologicalNotes := zoneResult.2.2 ++ agrNotes ++ invNotes ++ degNotes
  { ecosystem_type := zoneResult.1
    species_hints := if speciesHints = [] then ["Vegetación general"] else speciesHints
    ecological_notes :=
      if ecologicalNotes = [] then ["Condiciones normales"] else ecologicalNotes
    biodiversity_potential := calculateBiodiversityPotential ndvi evi temp precip
    confidence :=
      if 2 < speciesHints.length then "Alta"
      else if 0 < speciesHints.length then "Media"
      else "Baja"
    conservation_priority := if 0.6 < ndvi ∨ ndvi < 0.3 then "Alta" else "Media" }

/-! ### Concrete series used by the predictor properties -/

/-- The 14-entry series with a single bloom transition at `20240101`
(`0.7 - 0.5 = 0.2 > 0.05` and `0.7 > 0.6`), followed by twelve
non-transitioning weekly entries. -/
def specSeries : List HistEntry :=
  [⟨0.5, 20240101⟩, ⟨0.7, 20240108⟩, ⟨0.5, 20240115⟩, ⟨0.5, 20240122⟩,
   ⟨0.5, 20240129⟩, ⟨0.5, 20240205⟩, ⟨0.5, 20240212⟩, ⟨0.5, 20240219⟩,
   ⟨0.5, 20240226⟩, ⟨0.5, 20240304⟩, ⟨0.5, 20240311⟩, ⟨0.5, 20240318⟩,
   ⟨0.5, 20240325⟩, ⟨0.5, 20240401⟩]

/-- A 14-entry series with three bloom transitions, at `20240101`,
`20240102` and `20240104`, whose day gaps are 1 and 2 (mean 3/2). -/
def meanGapSeries : List HistEntry :=
  [⟨0.5, 20240101⟩, ⟨0.7, 20240102⟩, ⟨0.8, 20240104⟩, ⟨0.9, 20240110⟩,
   ⟨0.1, 20240111⟩, ⟨0.1, 20240112⟩, ⟨0.1, 20240113⟩, ⟨0.1, 20240114⟩,
   ⟨0.1, 20240115⟩, ⟨0.1, 20240116⟩, ⟨0.1, 20240117⟩, ⟨0.1, 20240118⟩,
   ⟨0.1, 20240119⟩, ⟨0.1, 20240120⟩]

/-! ### Helper lemmas -/

lemma roundTo_le_roundTo (d : ℕ) {x y : ℚ} (h : x ≤ y) : roundTo d x ≤ roundTo d y := by
  have hp : (0 : ℚ) < 10 ^ d := by positivity
  have hr : round (x * 10 ^ d) ≤ round (y * 10 ^ d) := by
    rw [round_eq, round_eq]
    exact Int.floor_mono (by nlinarith [hp.le])
  unfold roundTo
  exact (div_le_div_right hp).2 (by exact_mod_cast hr)

lemma simulatedNdvi_nonneg (t p : ℚ) : 0 ≤ calculateSimulatedNdvi t p :=
  le_max_left 0 _

lemma simulatedNdvi_le (t p : ℚ) : calculateSimulatedNdvi t p ≤ 0.95 := by
  unfold calculateSimulatedNdvi
  exact max_le (by norm_num) (min_le_left _ _)

lemma eviFromNdvi_ge {n : ℚ} (h : 0 ≤ n) : n ≤ eviFromNdvi n := by
  unfold eviFromNdvi
  split
  · nlinarith
  · exact le_refl n

lemma eviFromNdvi_le_one {n : ℚ} (h0 : 0 ≤ n) (h : n ≤ 0.95) : eviFromNdvi n ≤ 1 := by
  unfold eviFromNdvi
  split
  · nlinarith
  · linarith

/-! ### Claim theorems -/

/-- Claim C1: for a climate sample with `ndvi ∈ [0, 0.95]`, `evi ≥ 0`,
`precipitation ≥ 0` and any temperature, `analyze_bloom` returns
`level = clamp(0, 100, vegFactor + tempFactor + precipFactor)` rounded to one
decimal, and the returned level always lies in `[0, 100]`. -/
theorem bloom_level_clamped (nd ev t p : ℚ)
    (h0 : 0 ≤ nd) (h1 : nd ≤ 0.95) (h2 : 0 ≤ ev) (h3 : 0 ≤ p) :
    (analyzeBloom ⟨some nd, some ev, some t, some p⟩).level
      = roundTo 1 (max 0 (min (((nd + ev) / 2) * 40
          + max 0 ((10 - |t - 20|) / 10) * 30
          + (if 0 < p then min (p / 15) 1 * 30 else 5)) 100))
    ∧ 0 ≤ (analyzeBloom ⟨some nd, some ev, some t, some p⟩).level
    ∧ (analyzeBloom ⟨some nd, some ev, some t, some p⟩).level ≤ 100 := by
  have hveg : 0 ≤ ((nd + ev) / 2) * 40 :=
    mul_nonneg (div_nonneg (add_nonneg h0 h2) (by norm_num)) (by norm_num)
  have htf : 0 ≤ max 0 ((10 - |t - 20|) / 10) * 30 :=
    mul_nonneg (le_max_left 0 _) (by norm_num)
  have hpf : 0 ≤ (if 0 < p then min (p / 15) 1 * 30 else 5) := by
    split
    · exact mul_nonneg (le_min (by positivity) (by norm_num)) (by norm_num)
    · norm_num
  have hS : 0 ≤ ((nd + ev) / 2) * 40 + max 0 ((10 - |t - 20|) / 10) * 30
      + (if 0 < p then min (p / 15) 1 * 30 else 5) :=
    add_nonneg (add_nonneg hveg htf) hpf
  have hmin : (0 : ℚ) ≤ min (((nd + ev) / 2) * 40 + max 0 ((10 - |t - 20|) / 10) * 30
      + (if 0 < p then min (p / 15) 1 * 30 else 5)) 100 :=
    le_min hS (by norm_num)
  have hclamp : max 0 (min (((nd + ev) / 2) * 40 + max 0 ((10 - |t - 20|) / 10) * 30
      + (if 0 < p then min (p / 15) 1 * 30 else 5)) 100)
      = min (((nd + ev) / 2) * 40 + max 0 ((10 - |t - 20|) / 10) * 30
      + (if 0 < p then min (p / 15) 1 * 30 else 5)) 100 := max_eq_right hmin
  have hlevel : (analyzeBloom ⟨some nd, some ev, some t, some p⟩).level
      = roundTo 1 (min (((nd + ev) / 2) * 40 + max 0 ((10 - |t - 20|) / 10) * 30
      + (if 0 < p then min (p / 15) 1 * 30 else 5)) 100) := rfl
  refine ⟨by rw [hclamp, hlevel], ?_, ?_⟩
  · rw [hlevel]
    calc (0 : ℚ) = roundTo 1 0 := by norm_num [roundTo, round_eq]
      _ ≤ _ := roundTo_le_roundTo 1 hmin
  · rw [hlevel]
    calc roundTo 1 _ ≤ roundTo 1 100 := roundTo_le_roundTo 1 (min_le_right _ _)
      _ = 100 := by norm_num [roundTo, round_eq]

/-- Claim C1 witness at `ndvi = 0.5`, `evi = 0.6`, `temp = 20`, `precip = 10`. -/
theorem bloom_level_clamped_witness :
    0 ≤ (analyzeBloom ⟨some 0.5, some 0.6, some 20, some 10⟩).level
    ∧ (analyzeBloom ⟨some 0.5, some 0.6, some 20, some 10⟩).level ≤ 100 :=
  ⟨(bloom_level_clamped 0.5 0.6 20 10 (by norm_num) (by norm_num) (by norm_num)
      (by norm_num)).2.1,
   (bloom_level_clamped 0.5 0.6 20 10 (by norm_num) (by norm_num) (by norm_num)
      (by norm_num)).2.2⟩

/-- Claim C2: the status bands partition all levels exhaustively top-down
(`level ≥ 70` peak, `50 ≤ level < 70` active, `30 ≤ level < 50` early,
`level < 30` none), and the six boundary levels 29.9, 30.0, 49.9, 50.0,
69.9, 70.0 classify as stated. -/
theorem status_bands :
    (∀ l : ℚ, 70 ≤ l → statusOf l = .peak_bloom)
    ∧ (∀ l : ℚ, 50 ≤ l → l < 70 → statusOf l = .active_bloom)
    ∧ (∀ l : ℚ, 30 ≤ l → l < 50 → statusOf l = .early_bloom)
    ∧ (∀ l : ℚ, l < 30 → statusOf l = .no_bloom)
    ∧ statusOf 29.9 = .no_bloom ∧ statusOf 30 = .early_bloom
    ∧ statusOf 49.9 = .early_bloom ∧ statusOf 50 = .active_bloom
    ∧ statusOf 69.9 = .active_bloom ∧ statusOf 70 = .peak_bloom := by
  refine ⟨?_, ?_, ?_, ?_, ?_, ?_, ?_, ?_, ?_, ?_⟩
  · intro l h
    unfold statusOf
    rw [if_pos h]
  · intro l h h'
    unfold statusOf
    rw [if_neg (not_le.2 h'), if_pos h]
  · intro l h h'
    unfold statusOf
    rw [if_neg (not_le.2 (by linarith : l < 70)), if_neg (not_le.2 h'), if_pos h]
  · intro l h
    unfold statusOf
    rw [if_neg (not_le.2 (by linarith : l < 70)), if_neg (not_le.2 (by linarith : l < 50)),
      if_neg (not_le.2 h)]
  all_goals norm_num [statusOf]

/-- Claim C2 witness: one level in each band. -/
theorem status_bands_witness :
    statusOf 85 = .peak_bloom ∧ statusOf 55 = .active_bloom
    ∧ statusOf 35 = .early_bloom ∧ statusOf 5 = .no_bloom :=
  ⟨status_bands.1 85 (by norm_num),
   status_bands.2.1 55 (by norm_num) (by norm_num),
   status_bands.2.2.1 35 (by norm_num) (by norm_num),
   status_bands.2.2.2.1 5 (by norm_num)⟩

/-- Claim C3: for every level in `[0, 100]` the confidence equals the band
formula capped at 0.95 and rounded to two decimals, and never exceeds 0.95. -/
theorem confidence_spec (l : ℚ) (h0 : 0 ≤ l) (h1 : l ≤ 100) :
    confidenceOf l
      = roundTo 2 (min (if 70 ≤ l then 0.85 + (l - 70) / 100
          else if 50 ≤ l then 0.70 + (l - 50) / 100
          else if 30 ≤ l then 0.55 + (l - 30) / 100
          else 0.40 + l / 100) 0.95)
    ∧ confidenceOf l ≤ 0.95 := by
  refine ⟨rfl, ?_⟩
  calc confidenceOf l ≤ roundTo 2 0.95 := roundTo_le_roundTo 2 (min_le_right _ _)
    _ = 0.95 := by norm_num [roundTo, round_eq]

/-- Claim C3 witness at level 80. -/
theorem confidence_spec_witness : confidenceOf 80 ≤ 0.95 :=
  (confidence_spec 80 (by norm_num) (by norm_num)).2

/-- Claim C4: on the successful remote-lookup path the derived NDVI is the
stated pure function of temperature and precipitation, and always lies in
`[0, 0.95]`; the definition involves no randomness. -/
theorem simulated_ndvi_spec (t p : ℚ) :
    calculateSimulatedNdvi t p
      = max 0 (min 0.95 ((max 0 (min 1 (1 - |t - 20| / 30)) * 0.6
          + (if 0 < p then min (p / 10) 1 else 0.3) * 0.4) * 0.9))
    ∧ 0 ≤ calculateSimulatedNdvi t p
    ∧ calculateSimulatedNdvi t p ≤ 0.95 :=
  ⟨rfl, simulatedNdvi_nonneg t p, simulatedNdvi_le t p⟩

/-- Claim C5 counterexample: no derived NDVI in `[0, 0.95]` ever yields an
EVI above 1.0 — below the 0.83 branch point the EVI stays below 0.996, and
at or above it the EVI equals the NDVI, at most 0.95. -/
theorem evi_exceeds_one_refuted :
    ¬ ∃ n : ℚ, 0 ≤ n ∧ n ≤ 0.95 ∧ 1 < eviFromNdvi n := by
  rintro ⟨n, h0, h95, hgt⟩
  exact absurd hgt (not_lt.2 (eviFromNdvi_le_one h0 h95))

/-- Claim C5 (amended): on the primary path `evi = ndvi * 1.2` when
`ndvi < 0.83` and `evi = ndvi` otherwise; every derived EVI satisfies
`evi ≥ ndvi`, and the EVI never exceeds 1.0 — including after the 3-decimal
rounding on the returned record. -/
theorem evi_formula_spec :
    (∀ n : ℚ, 0 ≤ n → n ≤ 0.95 →
        eviFromNdvi n = (if n < 0.83 then n * 1.2 else n)
        ∧ n ≤ eviFromNdvi n ∧ eviFromNdvi n ≤ 1)
    ∧ ∀ t p : ℚ,
        (getVegetationIndexSuccess t p).ndvi ≤ (getVegetationIndexSuccess t p).evi
        ∧ (getVegetationIndexSuccess t p).evi ≤ 1 := by
  constructor
  · intro n h0 h95
    exact ⟨rfl, eviFromNdvi_ge h0, eviFromNdvi_le_one h0 h95⟩
  · intro t p
    constructor
    · exact roundTo_le_roundTo 3 (eviFromNdvi_ge (simulatedNdvi_nonneg t p))
    · calc (getVegetationIndexSuccess t p).evi
          ≤ roundTo 3 1 := roundTo_le_roundTo 3
            (eviFromNdvi_le_one (simulatedNdvi_nonneg t p) (simulatedNdvi_le t p))
        _ = 1 := by norm_num [roundTo, round_eq]

/-- Claim C5 witness at `ndvi = 0.5`. -/
theorem evi_formula_spec_witness :
    eviFromNdvi 0.5 = (if (0.5 : ℚ) < 0.83 then 0.5 * 1.2 else 0.5)
    ∧ (0.5 : ℚ) ≤ eviFromNdvi 0.5 ∧ eviFromNdvi 0.5 ≤ 1 :=
  evi_formula_spec.1 0.5 (by norm_num) (by norm_num)

/-- Claim C6: for every draw `u ∈ [0, 0.3]` of `random.uniform(0, 0.3)`, the
fallback NDVI at `lat = 0` lies in `[0.4, 0.7]`, and at `lat = ±90` it is
exactly 0.4 (the random spread collapses to zero width); the fallback
generator is a total function, so it never fails. -/
theorem fallback_ndvi_spec (u uT uP : ℚ) (h0 : 0 ≤ u) (h3 : u ≤ 0.3) :
    (0.4 ≤ (getFallbackData 0 u uT uP).ndvi ∧ (getFallbackData 0 u uT uP).ndvi ≤ 0.7)
    ∧ (getFallbackData 90 u uT uP).ndvi = 0.4
    ∧ (getFallbackData (-90) u uT uP).ndvi = 0.4 := by
  have hzero : (getFallbackData 0 u uT uP).ndvi = roundTo 3 (0.4 + u * (1 - |(0 : ℚ)| / 90)) := rfl
  refine ⟨⟨?_, ?_⟩, ?_, ?_⟩
  · rw [hzero]
    calc (0.4 : ℚ) = roundTo 3 0.4 := by norm_num [roundTo, round_eq]
      _ ≤ roundTo 3 (0.4 + u * (1 - |(0 : ℚ)| / 90)) := by
          apply roundTo_le_roundTo
          rw [abs_zero]
          nlinarith
  · rw [hzero]
    calc roundTo 3 (0.4 + u * (1 - |(0 : ℚ)| / 90)) ≤ roundTo 3 0.7 := by
          apply roundTo_le_roundTo
          rw [abs_zero]
          nlinarith
      _ = 0.7 := by norm_num [roundTo, round_eq]
  · have : (getFallbackData 90 u uT uP).ndvi = roundTo 3 (0.4 + u * (1 - |(90 : ℚ)| / 90)) := rfl
    rw [this]
    norm_num [roundTo, round_eq]
  · have : (getFallbackData (-90) u uT uP).ndvi
        = roundTo 3 (0.4 + u * (1 - |(-90 : ℚ)| / 90)) := rfl
    rw [this]
    norm_num [roundTo, round_eq]

/-- Claim C6 witness at `u = 0.1`. -/
theorem fallback_ndvi_spec_witness :
    (0.4 ≤ (getFallbackData 0 0.1 0 0).ndvi ∧ (getFallbackData 0 0.1 0 0).ndvi ≤ 0.7)
    ∧ (getFallbackData 90 0.1 0 0).ndvi = 0.4
    ∧ (getFallbackData (-90) 0.1 0 0).ndvi = 0.4 :=
  fallback_ndvi_spec 0.1 0 0 (by norm_num) (by norm_num)

/-- Claim C7: for every historical series shorter than 14 entries, including
the empty one and regardless of the entries' contents, `predict_bloom_date`
returns the insufficient-data sentinel; the embedded function is total, so
the call never fails. -/
theorem insufficient_data_sentinel (hist : List HistEntry) (h : hist.length < 14) :
    predictBloomDate hist = .insufficientData := by
  unfold predictBloomDate
  rw [if_pos h]

/-- Claim C7 witness at the empty series. -/
theorem insufficient_data_sentinel_witness :
    predictBloomDate [] = .insufficientData :=
  insufficient_data_sentinel [] (by simp)

/-- Claim C8 counterexample: on `meanGapSeries` (transition dates `20240101`,
`20240102`, `20240104`, day gaps 1 and 2), the code returns the truncated
average interval 1, while the mean of the day gaps is 3/2, so the predicted
date is `lastTransitionDate + 1` day and not `lastTransitionDate + mean` days. -/
theorem predict_mean_refuted :
    predictBloomDate meanGapSeries
      = .predicted (dateToDays 20240104 + 1) 0.75 1 3
    ∧ ((dateGaps (bloomTransitionDates meanGapSeries)).sum : ℚ)
        / ((dateGaps (bloomTransitionDates meanGapSeries)).length : ℚ) = 3 / 2
    ∧ (1 : ℚ) ≠ 3 / 2 := by
  refine ⟨?_, ?_, by norm_num⟩
  · norm_num [meanGapSeries, predictBloomDate, bloomTransitionDates, bloom_threshold_ndvi,
      growth_rate_threshold, calculateAverageInterval, dateGaps, dateToDays, daysFromCivil,
      List.cons_ne_nil, intTrunc, roundTo, round_eq]
  · norm_num [meanGapSeries, bloomTransitionDates, bloom_threshold_ndvi,
      growth_rate_threshold, dateGaps, dateToDays, daysFromCivil]

/-- Claim C8 (amended): for a series of at least 14 entries with at least one
bloom transition, `predict_bloom_date` returns the predicted date
`lastTransitionDate + avgInterval` days, probability
`min(0.95, 0.6 + count * 0.05)` rounded to two decimals, and
`historical_blooms = count`, where `avgInterval` is the mean of the day gaps
between consecutive transition dates truncated toward zero (`int()` of the
mean), fixed at 90 when there are fewer than two transition dates; on the
14-entry `specSeries` the single transition at `20240101` gives
`historical_blooms = 1` and the interval defaults to 90. -/
theorem predict_bloom_spec :
    (∀ hist : List HistEntry, 14 ≤ hist.length → bloomTransitionDates hist ≠ [] →
        predictBloomDate hist = .predicted
          (dateToDays ((bloomTransitionDates hist).getLastD 0)
            + calculateAverageInterval (bloomTransitionDates hist))
          (roundTo 2 (min 0.95 (0.6 + ((bloomTransitionDates hist).length : ℚ) * 0.05)))
          (calculateAverageInterval (bloomTransitionDates hist))
          (bloomTransitionDates hist).length)
    ∧ (∀ dates : List ℕ, 2 ≤ dates.length →
        calculateAverageInterval dates
          = intTrunc (((dateGaps dates).sum : ℚ) / ((dateGaps dates).length : ℚ)))
    ∧ (∀ dates : List ℕ, dates.length < 2 → calculateAverageInterval dates = 90)
    ∧ predictBloomDate specSeries = .predicted (dateToDays 20240101 + 90) 0.65 90 1 := by
  refine ⟨?_, ?_, ?_, ?_⟩
  · intro hist h14 hne
    unfold predictBloomDate
    rw [if_neg (not_lt.2 h14), if_neg hne]
  · intro dates h
    unfold calculateAverageInterval
    rw [if_neg (not_lt.2 h)]
  · intro dates h
    unfold calculateAverageInterval
    rw [if_pos h]
  · norm_num [specSeries, predictBloomDate, bloomTransitionDates, bloom_threshold_ndvi,
      growth_rate_threshold, calculateAverageInterval, dateGaps, dateToDays, daysFromCivil,
      List.cons_ne_nil, intTrunc, roundTo, round_eq]

/-- Claim C8 witness: the main equation instantiated on `specSeries`, the
truncated-mean equation on the three transition dates of `meanGapSeries`,
and the fewer-than-two default on a single date. -/
theorem predict_bloom_spec_witness :
    predictBloomDate specSeries = .predicted
      (dateToDays ((bloomTransitionDates specSeries).getLastD 0)
        + calculateAverageInterval (bloomTransitionDates specSeries))
      (roundTo 2 (min 0.95 (0.6 + ((bloomTransitionDates specSeries).length : ℚ) * 0.05)))
      (calculateAverageInterval (bloomTransitionDates specSeries))
      (bloomTransitionDates specSeries).length
    ∧ calculateAverageInterval (bloomTransitionDates meanGapSeries)
        = intTrunc (((dateGaps (bloomTransitionDates meanGapSeries)).sum : ℚ)
            / ((dateGaps (bloomTransitionDates meanGapSeries)).length : ℚ))
    ∧ calculateAverageInterval [20240101] = 90 :=
  ⟨predict_bloom_spec.1 specSeries (by norm_num [specSeries])
      (by norm_num [specSeries, bloomTransitionDates, bloom_threshold_ndvi,
        growth_rate_threshold, List.cons_ne_nil]),
   predict_bloom_spec.2.1 (bloomTransitionDates meanGapSeries)
      (by norm_num [meanGapSeries, bloomTransitionDates, bloom_threshold_ndvi,
        growth_rate_threshold]),
   predict_bloom_spec.2.2.1 [20240101] (by norm_num)⟩

/-- Claim C9: at `lat = 0`, `ndvi = 0.8`, `temp = 26`, `precip = 12` the
classifier returns ecosystem type Tropical, and both nested tropical rules
fire in order: the species hints are exactly the dense-rainforest hint
followed by the tropical-flower hint. -/
theorem tropical_both_hints :
    (identifySpeciesType ⟨some 0.8, none, some 26, some 12⟩ ⟨some 0⟩).ecosystem_type
      = "Tropical"
    ∧ (identifySpeciesType ⟨some 0.8, none, some 26, some 12⟩ ⟨some 0⟩).species_hints
      = ["Selva tropical densa", "Flores tropicales: Orquídeas, Heliconias, Jengibre"] := by
  norm_num [identifySpeciesType, List.cons_ne_nil]

/-- Claim C10: `analyze_bloom` is total over any sample record — every missing
field is defaulted (ndvi 0, evi 0, temperature 20, precipitation 0) — and the
completely empty sample yields `level = 35.0` with status `early_bloom`. -/
theorem empty_sample_early_bloom :
    (∀ d : SatelliteData,
        analyzeBloom d = analyzeBloom ⟨some (d.ndvi.getD 0), some (d.evi.getD 0),
          some (d.temperature.getD 20), some (d.precipitation.getD 0)⟩)
    ∧ (analyzeBloom ⟨none, none, none, none⟩).level = 35
    ∧ (analyzeBloom ⟨none, none, none, none⟩).status = .early_bloom := by
  refine ⟨fun d => rfl, ?_, ?_⟩ <;>
    norm_num [analyzeBloom, calculateBloomLevel, statusOf, roundTo, round_eq]

end BloomWatch
